import Mathlib

/-!
Verification of the validation / type-detection engine of the repository
JoseJunior1001/API-Validacao-Dados.

The file `src/db.js` of the repository contains three concatenated revisions of
the same Express server.  The definitions below are a shallow embedding of the
validators and the type detector of the final (most complete) revision
(`db.js` lines 464-1157): `validateCPF`, `validateCNPJ`, `validateEmail`,
`validatePassword`, `validatePhoneBR`, `validateCEP`, `validateRG`,
`validateName` and `detectType`, together with their helpers.  Functions of the
first revision (`db.js` lines 12-182) that several claims cite are embedded
under the names `rev1ValidateCPF`, `rev1ValidatePassword` and
`rev1ValidatePhoneBR`.

Modelling conventions:
* a JS string is a Lean `String`, manipulated through its `List Char` data;
  `.length` counts characters (the inputs of interest are BMP text, where this
  agrees with the JS UTF-16 length);
* a potentially-null argument is an `Option String`; the JS coalescing
  `(raw || '')` is `orEmpty`;
* the ad-hoc JS result objects are the `Outcome` structure: a field that a
  branch does not set is `none`;
* `throw new ValidationError(...)` caught at the end of the same function is
  embedded as a direct early return of the failure outcome, which is
  observationally identical;
* the JS regexes used by the code are embedded as executable character-list
  predicates (`\s` is modelled by the whitespace characters `isWsJS`, covering
  the characters that actually occur in the analysed data);
* `String.prototype.toLowerCase` is modelled ASCII-wise by `toLowerJS`.
-/

/-- JS `(raw || '')` for a nullable string. -/
def orEmpty : Option String → String
  | none => ""
  | some s => s

/-- `onlyDigits`: strips every non-decimal-digit character (`replace(/\D+/g,'')`). -/
def onlyDigits (s : String) : String :=
  ⟨s.data.filter Char.isDigit⟩

/-- JS whitespace class `\s` (the characters relevant to this code base). -/
def isWsJS (c : Char) : Bool :=
  c == ' ' || c == '\t' || c == '\n' || c == '\r' || c == '\x0b' || c == '\x0c' || c == '\xa0'

/-- JS `String.prototype.trim()`: remove leading and trailing whitespace. -/
def trimJS (s : String) : String :=
  ⟨((s.data.dropWhile isWsJS).reverse.dropWhile isWsJS).reverse⟩

/-- JS `String.prototype.toLowerCase()` (ASCII letters). -/
def toLowerJS (s : String) : String :=
  ⟨s.data.map Char.toLower⟩

/-- `isRepeated(digits, minLength)`: the final revision's
`if (digits.length < minLength) return false; return /^(\d)\1{minLength-1,}$/.test(digits)`:
a string of length at least `minLength` made of a single repeated digit. -/
def isRepeated (digits : String) (minLength : Nat) : Bool :=
  if digits.length < minLength then false
  else
    match digits.data with
    | [] => false
    | c :: rest => c.isDigit && rest.all (fun d => d == c)

/-- `parseInt` of a single digit character. -/
def charVal (c : Char) : Nat := c.toNat - 48

/-- `parseInt(digits[i])` (only used at indices guarded by length checks). -/
def digitAt (s : String) (i : Nat) : Nat := charVal (s.data.getD i '0')

/-- JS `s[i]` as a character (only used at indices guarded by length checks). -/
def charAtD (s : String) (i : Nat) : Char := s.data.getD i ' '

/-- JS `s.slice(a, b)` for `a ≤ b` within bounds. -/
def sliceStr (s : String) (a b : Nat) : String :=
  ⟨(s.data.drop a).take (b - a)⟩

/-- JS `s.slice(a)`. -/
def sliceFrom (s : String) (a : Nat) : String :=
  ⟨s.data.drop a⟩

/-- JS `s.startsWith('55')`. -/
def startsWith55 (s : String) : Bool :=
  match s.data with
  | '5' :: '5' :: _ => true
  | _ => false

/-- Per-type `metadata` objects attached to successful outcomes. -/
inductive Metadata where
  | cpfMeta (region : String)
  | cnpjMeta (estado : String)
  | emailMeta (domain : String) (isDisposable : Bool)
  | passwordMeta (length : Nat) (hasUpper hasLower hasNumber hasSymbol : Bool)
  | phoneMeta (subtype : String) (ddd : String)
  | cepMeta (estado : String) (regiao : String)
  | rgMeta (length : Nat)
  | nameMeta (wordCount : Nat) (length : Nat)
  deriving DecidableEq, Repr

/-- The ad-hoc validation result object.  A field a branch does not set is
`none` (the key is absent in the JS object). -/
structure Outcome where
  valid : Bool
  normalized : Option String := none
  errors : Option (List String) := none
  errorCode : Option String := none
  input : Option String := none
  metadata : Option Metadata := none
  strength : Option Nat := none
  deriving DecidableEq, Repr

/-- The `catch` block shared by the final revision's validators:
`{ valid: false, errors: [error.message], errorCode: error.code, input: raw }`. -/
def failureOutcome (raw : Option String) (msg code : String) : Outcome :=
  { valid := false, errors := some [msg], errorCode := some code, input := raw }

/-- `getCPFRegion`: fixed lookup on the 9th digit (`digits[8]`). -/
def getCPFRegion (digits : String) : String :=
  match charAtD digits 8 with
  | '1' => "DF, GO, MS, MT, TO"
  | '2' => "AC, AM, AP, PA, RO, RR"
  | '3' => "CE, MA, PI"
  | '4' => "AL, PB, PE, RN"
  | '5' => "BA, SE"
  | '6' => "MG"
  | '7' => "ES, RJ"
  | '8' => "SP"
  | '9' => "PR, SC"
  | '0' => "RS"
  | _ => "Região desconhecida"

/-- First CPF check digit: weights `10 - i` over `digits[0..8]`,
`(sum * 10) % 11`, with `10`/`11` mapped to `0`. -/
def cpfCheck1 (digits : String) : Nat :=
  let sum := (List.range 9).foldl (fun acc i => acc + digitAt digits i * (10 - i)) 0
  let r := sum * 10 % 11
  if r = 10 || r = 11 then 0 else r

/-- Second CPF check digit: weights `11 - i` over `digits[0..9]`. -/
def cpfCheck2 (digits : String) : Nat :=
  let sum := (List.range 10).foldl (fun acc i => acc + digitAt digits i * (11 - i)) 0
  let r := sum * 10 % 11
  if r = 10 || r = 11 then 0 else r

/-- CPF display form `ddd.ddd.ddd-dd`. -/
def cpfFormat (digits : String) : String :=
  sliceStr digits 0 3 ++ "." ++ sliceStr digits 3 6 ++ "." ++ sliceStr digits 6 9
    ++ "-" ++ sliceFrom digits 9

/-- `validateCPF` of the final revision (`db.js` lines 525-580). -/
def validateCPF (raw : Option String) : Outcome :=
  let digits := onlyDigits (orEmpty raw)
  if digits.length ≠ 11 then
    failureOutcome raw "CPF deve ter exatamente 11 dígitos" "INVALID_LENGTH"
  else if isRepeated digits 11 then
    failureOutcome raw "CPF inválido (sequência repetida)" "REPEATED_SEQUENCE"
  else if cpfCheck1 digits ≠ digitAt digits 9 then
    failureOutcome raw "Dígito verificador inválido" "INVALID_CHECK_DIGIT"
  else if cpfCheck2 digits ≠ digitAt digits 10 then
    failureOutcome raw "Dígito verificador inválido" "INVALID_CHECK_DIGIT"
  else
    { valid := true
      normalized := some (cpfFormat digits)
      metadata := some (Metadata.cpfMeta (getCPFRegion digits)) }

/-- CNPJ check-digit weight vectors. -/
def cnpjWeights1 : List Nat := [5, 4, 3, 2, 9, 8, 7, 6, 5, 4, 3, 2]

/-- Second CNPJ weight vector. -/
def cnpjWeights2 : List Nat := [6, 5, 4, 3, 2, 9, 8, 7, 6, 5, 4, 3, 2]

/-- `calcDigit(weights, base)`: weighted sum, `sum % 11`, digit `0` if the
remainder is below `2`, else `11 - remainder`. -/
def calcCNPJDigit (weights : List Nat) (base : String) : Nat :=
  let sum := (List.range weights.length).foldl
    (fun acc i => acc + digitAt base i * weights.getD i 0) 0
  let r := sum % 11
  if r < 2 then 0 else 11 - r

/-- CNPJ display form `dd.ddd.ddd/dddd-dd`. -/
def cnpjFormat (digits : String) : String :=
  sliceStr digits 0 2 ++ "." ++ sliceStr digits 2 5 ++ "." ++ sliceStr digits 5 8
    ++ "/" ++ sliceStr digits 8 12 ++ "-" ++ sliceFrom digits 12

/-- `validateCNPJ` of the final revision (`db.js` lines 599-647). -/
def validateCNPJ (raw : Option String) : Outcome :=
  let digits := onlyDigits (orEmpty raw)
  if digits.length ≠ 14 then
    failureOutcome raw "CNPJ deve ter exatamente 14 dígitos" "INVALID_LENGTH"
  else if isRepeated digits 14 then
    failureOutcome raw "CNPJ inválido (sequência repetida)" "REPEATED_SEQUENCE"
  else if calcCNPJDigit cnpjWeights1 (sliceStr digits 0 12) ≠ digitAt digits 12
      || calcCNPJDigit cnpjWeights2 (sliceStr digits 0 13) ≠ digitAt digits 13 then
    failureOutcome raw "Dígitos verificadores inválidos" "INVALID_CHECK_DIGIT"
  else
    { valid := true
      normalized := some (cnpjFormat digits)
      metadata := some (Metadata.cnpjMeta (sliceStr digits 0 2)) }

/-- Character class `[^\s@]` of the e-mail regex. -/
def isEmailAtomChar (c : Char) : Bool := !(isWsJS c) && c != '@'

/-- The e-mail shape test `/^[^\s@]+@[^\s@]+\.[^\s@]{2,}$/`: exactly one `@`,
no whitespace, a non-empty local part, and after the `@` some non-empty prefix
followed by a dot and at least two further characters. -/
def emailRegexTest (s : String) : Bool :=
  let lp := s.data.takeWhile (fun c => c != '@')
  let rest := s.data.drop lp.length
  match rest with
  | [] => false
  | _ :: after =>
    !lp.isEmpty && lp.all isEmailAtomChar && after.all isEmailAtomChar
      && ((after.drop 1).dropLast.dropLast).contains '.'

/-- Fixed disposable-domain set of the final revision. -/
def disposableDomains : List String :=
  ["tempmail.com", "disposable.com", "throwaway.com", "mailinator.com",
   "guerrillamail.com", "10minutemail.com", "yopmail.com"]

/-- `checkDisposableEmail(domain)`. -/
def checkDisposableEmail (domain : String) : Bool :=
  disposableDomains.contains (toLowerJS domain)

/-- `validateEmail` of the final revision (`db.js` lines 650-690). -/
def validateEmail (raw : Option String) : Outcome :=
  let s := trimJS (orEmpty raw)
  if s.data.isEmpty then
    failureOutcome raw "E-mail não informado" "MISSING_EMAIL"
  else if 254 < s.length then
    failureOutcome raw "E-mail muito longo" "EMAIL_TOO_LONG"
  else if !(emailRegexTest s) then
    failureOutcome raw "Formato de e-mail inválido" "INVALID_FORMAT"
  else
    let localPart : String := ⟨s.data.takeWhile (fun c => c != '@')⟩
    let domain : String := ⟨(s.data.dropWhile (fun c => c != '@')).drop 1⟩
    if 64 < localPart.length then
      failureOutcome raw "Parte local do e-mail muito longa" "LOCAL_PART_TOO_LONG"
    else
      { valid := true
        normalized := some (toLowerJS s)
        metadata := some (Metadata.emailMeta (toLowerJS domain) (checkDisposableEmail domain)) }

/-- A JS password-policy object.  Every key that some revision of
`validatePassword` reads is a field; an absent key is `none`.  The final
revision destructures `requireUpper`, `requireLower`, `requireNumber`,
`requireSymbol`; the first revision reads `upper`, `lower`, `number`,
`symbol`; both read `minLength`, `maxLength` and `forbidCommon`. -/
structure PasswordPolicy where
  minLength : Option Nat := none
  maxLength : Option Nat := none
  upper : Option Bool := none
  lower : Option Bool := none
  number : Option Bool := none
  symbol : Option Bool := none
  requireUpper : Option Bool := none
  requireLower : Option Bool := none
  requireNumber : Option Bool := none
  requireSymbol : Option Bool := none
  forbidCommon : Option Bool := none
  deriving DecidableEq, Repr

/-- Symbol class of the final revision's password check:
`[!@#$%^&*(),.?":{}|<>]`. -/
def passwordSymbols : List Char :=
  "!@#$%^&*(),.?\":\x7b\x7d|<>".data

/-- Symbol class of the first revision's password check:
`[!@#$%^&*(),.?":{}|<>_\-+=\[\]\\;/`'~]`. -/
def rev1PasswordSymbols : List Char :=
  "!@#$%^&*(),.?\":\x7b\x7d|<>_-+=[]\\;/\x60\x27~".data

/-- `/[A-Z]/.test(s)`. -/
def hasUpperB (s : String) : Bool := s.data.any (fun c => 'A' ≤ c && c ≤ 'Z')

/-- `/[a-z]/.test(s)`. -/
def hasLowerB (s : String) : Bool := s.data.any (fun c => 'a' ≤ c && c ≤ 'z')

/-- `/\d/.test(s)`. -/
def hasNumberB (s : String) : Bool := s.data.any Char.isDigit

/-- Symbol presence for a given symbol class. -/
def hasSymbolIn (syms : List Char) (s : String) : Bool :=
  s.data.any (fun c => syms.contains c)

/-- Common-password denylist shared by both revisions. -/
def commonPasswords : List String :=
  ["123456", "password", "123456789", "qwerty", "abc123",
   "111111", "123123", "senha", "admin", "iloveyou"]

/-- Error message for a too-short password. -/
def msgMinLength (n : Nat) : String :=
  "Senha deve ter no mínimo " ++ Nat.repr n ++ " caracteres"

/-- Error message for a too-long password. -/
def msgMaxLength (n : Nat) : String :=
  "Senha deve ter no máximo " ++ Nat.repr n ++ " caracteres"

/-- Error message for a missing uppercase letter. -/
def msgUpper : String := "Ao menos 1 letra maiúscula"

/-- Error message for a missing lowercase letter. -/
def msgLower : String := "Ao menos 1 letra minúscula"

/-- Error message for a missing digit. -/
def msgNumber : String := "Ao menos 1 número"

/-- Error message for a missing symbol. -/
def msgSymbol : String := "Ao menos 1 símbolo"

/-- Error message for a denylisted password. -/
def msgCommon : String := "Senha muito comum"

/-- The ordered list of rule violations accumulated by the final revision's
`validatePassword` before it throws. -/
def passwordViolations (s : String) (policy : PasswordPolicy) : List String :=
  (if s.length < policy.minLength.getD 8 then [msgMinLength (policy.minLength.getD 8)] else [])
  ++ (if policy.maxLength.getD 128 < s.length then [msgMaxLength (policy.maxLength.getD 128)] else [])
  ++ (if policy.requireUpper.getD true && !(hasUpperB s) then [msgUpper] else [])
  ++ (if policy.requireLower.getD true && !(hasLowerB s) then [msgLower] else [])
  ++ (if policy.requireNumber.getD true && !(hasNumberB s) then [msgNumber] else [])
  ++ (if policy.requireSymbol.getD true && !(hasSymbolIn passwordSymbols s) then [msgSymbol] else [])
  ++ (if policy.forbidCommon.getD true && commonPasswords.contains (toLowerJS s) then [msgCommon] else [])

/-- `calculatePasswordStrength`: one point per satisfied criterion, capped at 5. -/
def calculatePasswordStrength (s : String) : Nat :=
  let strength :=
    (if 8 ≤ s.length then 1 else 0) + (if 12 ≤ s.length then 1 else 0)
    + (if hasUpperB s then 1 else 0) + (if hasLowerB s then 1 else 0)
    + (if hasNumberB s then 1 else 0) + (if hasSymbolIn passwordSymbols s then 1 else 0)
  min strength 5

/-- `errors.join(', ')` of the thrown `ValidationError`. -/
def joinSepChars : List (List Char) → List Char
  | [] => []
  | [m] => m
  | m :: ms => m ++ ',' :: ' ' :: joinSepChars ms

/-- `msgs.join(', ')` at the `String` level. -/
def joinCommaSpace (msgs : List String) : String :=
  ⟨joinSepChars (msgs.map String.data)⟩

/-- `error.message.split(', ')` on character lists: split at every
non-overlapping occurrence of the two-character separator. -/
def splitOn2 : List Char → List (List Char)
  | [] => [[]]
  | [c] => [[c]]
  | c1 :: c2 :: rest =>
    if c1 = ',' ∧ c2 = ' ' then [] :: splitOn2 rest
    else
      match splitOn2 (c2 :: rest) with
      | [] => [[c1]]
      | r :: rs => (c1 :: r) :: rs

/-- `s.split(', ')` at the `String` level. -/
def splitCommaSpace (s : String) : List String :=
  (splitOn2 s.data).map fun l => ⟨l⟩

/-- `validatePassword` of the final revision (`db.js` lines 701-757).  On
failure the accumulated violations are joined into the thrown message and the
`catch` block splits them back (`error.message.split(', ')`); the `input`
field is masked. -/
def validatePassword (raw : Option String) (policy : PasswordPolicy) : Outcome :=
  let s := orEmpty raw
  let errs := passwordViolations s policy
  if errs.isEmpty then
    { valid := true
      normalized := some "***"
      strength := some (calculatePasswordStrength s)
      metadata := some (Metadata.passwordMeta s.length (hasUpperB s) (hasLowerB s)
        (hasNumberB s) (hasSymbolIn passwordSymbols s)) }
  else
    { valid := false
      errors := some (splitCommaSpace (joinCommaSpace errs))
      errorCode := some "PASSWORD_POLICY_VIOLATION"
      input := some "***" }

/-- The DDD whitelist
`/^(1[1-9]|2[12478]|3[1-578]|4[1-9]|5[1345]|6[1-9]|7[1-9]|8[1-9]|9[1-9])$/`. -/
def validDDD (s : String) : Bool :=
  match s.data with
  | [a, b] =>
    (a == '1' && '1' ≤ b && b ≤ '9')
    || (a == '2' && (b == '1' || b == '2' || b == '4' || b == '7' || b == '8'))
    || (a == '3' && (('1' ≤ b && b ≤ '5') || b == '7' || b == '8'))
    || (a == '4' && '1' ≤ b && b ≤ '9')
    || (a == '5' && (b == '1' || b == '3' || b == '4' || b == '5'))
    || (a == '6' && '1' ≤ b && b ≤ '9')
    || (a == '7' && '1' ≤ b && b ≤ '9')
    || (a == '8' && '1' ≤ b && b ≤ '9')
    || (a == '9' && '1' ≤ b && b ≤ '9')
  | _ => false

/-- `validatePhoneBR` of the final revision (`db.js` lines 771-810): strip
non-digits, drop a leading `55`, require 10 or 11 local digits, whitelist the
DDD, require the third digit `9` for 11-digit numbers, and normalise as
`+55 (DD) local.slice(2,7)-local.slice(7)`. -/
def validatePhoneBR (raw : Option String) : Outcome :=
  let s := onlyDigits (orEmpty raw)
  let locl := if startsWith55 s then sliceFrom s 2 else s
  if locl.length ≠ 10 ∧ locl.length ≠ 11 then
    failureOutcome raw "Telefone deve ter 10 (fixo) ou 11 dígitos (celular)" "INVALID_LENGTH"
  else
    let ddd := sliceStr locl 0 2
    if !(validDDD ddd) then
      failureOutcome raw "DDD inválido" "INVALID_DDD"
    else if locl.length = 11 ∧ charAtD locl 2 ≠ '9' then
      failureOutcome raw "Celular deve iniciar com 9" "INVALID_CELL_FORMAT"
    else
      { valid := true
        normalized := some ("+55 (" ++ ddd ++ ") " ++ sliceStr locl 2 7 ++ "-" ++ sliceFrom locl 7)
        metadata := some (Metadata.phoneMeta (if locl.length = 11 then "celular" else "fixo") ddd) }

/-- `getCEPRegion`: fixed lookup on the first digit. -/
def getCEPRegion (c : Char) : String :=
  match c with
  | '0' => "SP"
  | '1' => "SP"
  | '2' => "RJ/ES"
  | '3' => "MG"
  | '4' => "BA/SE"
  | '5' => "PE/AL/PB/RN"
  | '6' => "CE/PI/MA/PA/AP/AM/RR/AC"
  | '7' => "DF/GO/TO/MT/MS/RO"
  | '8' => "PR/SC"
  | '9' => "RS"
  | _ => "Desconhecido"

/-- `validateCEP` of the final revision (`db.js` lines 813-839). -/
def validateCEP (raw : Option String) : Outcome :=
  let digits := onlyDigits (orEmpty raw)
  if digits.length ≠ 8 then
    failureOutcome raw "CEP deve ter 8 dígitos" "INVALID_LENGTH"
  else
    { valid := true
      normalized := some (sliceStr digits 0 5 ++ "-" ++ sliceFrom digits 5)
      metadata := some (Metadata.cepMeta (sliceStr digits 0 2) (getCEPRegion (charAtD digits 0))) }

/-- `validateRG` of the final revision (`db.js` lines 858-881). -/
def validateRG (raw : Option String) : Outcome :=
  let digits := onlyDigits (orEmpty raw)
  if digits.length < 7 ∨ 9 < digits.length then
    failureOutcome raw "RG deve ter entre 7 e 9 dígitos" "INVALID_LENGTH"
  else
    { valid := true
      normalized := some digits
      metadata := some (Metadata.rgMeta digits.length) }

/-- Character class `[A-Za-zÀ-ÿ\s'-]` of the name regex. -/
def isNameChar (c : Char) : Bool :=
  ('A' ≤ c && c ≤ 'Z') || ('a' ≤ c && c ≤ 'z')
    || (0xC0 ≤ c.toNat && c.toNat ≤ 0xFF) || isWsJS c || c == '\x27' || c == '-'

/-- `/^[A-Za-zÀ-ÿ\s'-]+$/.test(s)`. -/
def nameRegexTest (s : String) : Bool :=
  !s.data.isEmpty && s.data.all isNameChar

/-- `s.replace(/\s+/g, ' ')`: collapse whitespace runs into single spaces. -/
def collapseWsGo : Bool → List Char → List Char
  | _, [] => []
  | prevWs, c :: rest =>
    if isWsJS c then
      if prevWs then collapseWsGo true rest else ' ' :: collapseWsGo true rest
    else c :: collapseWsGo false rest

/-- Whitespace-run collapsing at the `String` level. -/
def collapseWs (s : String) : String := ⟨collapseWsGo false s.data⟩

/-- `s.split(/\s+/).length` for an already-trimmed `s`: interior whitespace
runs plus one. -/
def countWords (s : String) : Nat := (collapseWsGo false s.data).count ' ' + 1

/-- `validateName` of the final revision (`db.js` lines 884-916). -/
def validateName (raw : Option String) : Outcome :=
  let s := trimJS (orEmpty raw)
  if s.length < 2 then
    failureOutcome raw "Nome muito curto" "TOO_SHORT"
  else if 100 < s.length then
    failureOutcome raw "Nome muito longo" "TOO_LONG"
  else if !(nameRegexTest s) then
    failureOutcome raw "Nome contém caracteres inválidos" "INVALID_CHARACTERS"
  else
    { valid := true
      normalized := some (collapseWs s)
      metadata := some (Metadata.nameMeta (countWords s) s.length) }

/-- `detectType` of the final revision (`db.js` lines 919-960): length-based
dispatch that consults `validateCPF`/`validateCNPJ` for 11/14 digit strings,
then CEP, the DDD whitelist for phones, `@` for e-mail, 7-9 digits for RG and
the name character class. -/
def detectType (value : Option String) : Option String :=
  match value with
  | none => none
  | some str =>
    if str.data.isEmpty then none
    else
      let digits := onlyDigits str
      if digits.length = 11 ∧ (validateCPF (some str)).valid then some "cpf"
      else if digits.length = 14 ∧ (validateCNPJ (some str)).valid then some "cnpj"
      else if digits.length = 8 then some "cep"
      else if (digits.length = 10 ∨ digits.length = 11) ∧ validDDD (sliceStr digits 0 2) then
        some "phone-br"
      else if str.data.contains '@' then some "email"
      else if 7 ≤ digits.length ∧ digits.length ≤ 9 then some "rg"
      else if 2 ≤ str.length ∧ str.length ≤ 100 ∧ nameRegexTest str then some "name"
      else none

/-- The first revision's `isRepeated`: `/^(\d)\1{10,13}$/` — between 11 and 14
characters, all the same digit. -/
def rev1IsRepeated (digits : String) : Bool :=
  match digits.data with
  | [] => false
  | c :: rest =>
    c.isDigit && rest.all (fun d => d == c)
      && decide (11 ≤ digits.length) && decide (digits.length ≤ 14)

/-- The first revision's `calcCheck(baseLen)` for CPF: weights
`baseLen + 1 - i`, `(sum * 10) % 11`, `10` mapped to `0`. -/
def rev1CalcCheck (digits : String) (baseLen : Nat) : Nat :=
  let sum := (List.range baseLen).foldl
    (fun acc i => acc + digitAt digits i * (baseLen + 1 - i)) 0
  let m := sum * 10 % 11
  if m = 10 then 0 else m

/-- `validateCPF` of the first revision (`db.js` lines 39-58): length and
repeated-sequence errors are accumulated (not short-circuited) before the
check digits are verified; failures carry no `errorCode` and no `input`. -/
def rev1ValidateCPF (raw : Option String) : Outcome :=
  let digits := onlyDigits (orEmpty raw)
  let errs :=
    (if digits.length ≠ 11 then ["CPF deve ter 11 dígitos"] else [])
    ++ (if rev1IsRepeated digits then ["CPF inválido (sequência repetida)"] else [])
  if !errs.isEmpty then { valid := false, errors := some errs }
  else if rev1CalcCheck digits 9 = digitAt digits 9
      ∧ rev1CalcCheck digits 10 = digitAt digits 10 then
    { valid := true, normalized := some (cpfFormat digits) }
  else { valid := false, errors := some ["Dígitos verificadores inválidos"] }

/-- `/^\s|\s$/.test(s)`: leading or trailing whitespace. -/
def startsOrEndsWs (s : String) : Bool :=
  (match s.data with
    | [] => false
    | c :: _ => isWsJS c)
  || (match s.data.getLast? with
    | some c => isWsJS c
    | none => false)

/-- Error message of the first revision's whitespace check. -/
def rev1MsgWhitespace : String := "Não iniciar ou terminar com espaço"

/-- The ordered violation list of the first revision's `validatePassword`:
note that it reads the policy keys `upper`, `lower`, `number`, `symbol` and
also rejects leading/trailing whitespace. -/
def rev1PasswordViolations (s : String) (policy : PasswordPolicy) : List String :=
  (if s.length < policy.minLength.getD 8 then [msgMinLength (policy.minLength.getD 8)] else [])
  ++ (if policy.maxLength.getD 128 < s.length then [msgMaxLength (policy.maxLength.getD 128)] else [])
  ++ (if policy.upper.getD true && !(hasUpperB s) then [msgUpper] else [])
  ++ (if policy.lower.getD true && !(hasLowerB s) then [msgLower] else [])
  ++ (if policy.number.getD true && !(hasNumberB s) then [msgNumber] else [])
  ++ (if policy.symbol.getD true && !(hasSymbolIn rev1PasswordSymbols s) then [msgSymbol] else [])
  ++ (if policy.forbidCommon.getD true && commonPasswords.contains (toLowerJS s) then [msgCommon] else [])
  ++ (if startsOrEndsWs s then [rev1MsgWhitespace] else [])

/-- `validatePassword` of the first revision (`db.js` lines 96-125): on
failure the errors are returned as accumulated; on success the outcome is the
bare `{ valid: true }` — no `normalized` field is set. -/
def rev1ValidatePassword (raw : Option String) (policy : PasswordPolicy) : Outcome :=
  let s := orEmpty raw
  let errs := rev1PasswordViolations s policy
  if !errs.isEmpty then { valid := false, errors := some errs }
  else { valid := true }

/-- `validatePhoneBR` of the first revision (`db.js` lines 128-140): same
checks as the final revision but accumulated into one error list, and the
mobile normalised form is built from `local[2..5]` and `local.slice(6)`. -/
def rev1ValidatePhoneBR (raw : Option String) : Outcome :=
  let s := onlyDigits (orEmpty raw)
  let locl := if startsWith55 s then sliceFrom s 2 else s
  let ddd := sliceStr locl 0 2
  let errs :=
    (if locl.length ≠ 10 ∧ locl.length ≠ 11 then
      ["Telefone deve ter 10 (fixo) ou 11 dígitos (celular)"] else [])
    ++ (if !(validDDD ddd) then ["DDD inválido"] else [])
    ++ (if locl.length = 11 ∧ charAtD locl 2 ≠ '9' then ["Celular deve iniciar com 9"] else [])
  if !errs.isEmpty then { valid := false, errors := some errs }
  else
    { valid := true
      normalized := some ("+55 (" ++ ddd ++ ") "
        ++ ⟨[charAtD locl 2, charAtD locl 3, charAtD locl 4, charAtD locl 5]⟩
        ++ "-" ++ sliceFrom locl 6) }

/-! ### Specification-side definitions

The following definitions render the *spec's wording* (not the code) and are
compared with the embedded code in the refinement claims. -/

/-- Spec wording: a digit string that is "a single repeated digit". -/
def specAllSame (l : List Char) : Bool :=
  match l with
  | [] => true
  | c :: rest => rest.all (fun d => d == c)

/-- Spec wording of the CPF check-digit algorithm: weight the digit values by
the given weight vector, sum, take `(sum * 10) mod 11` and map `10` to `0`. -/
def cpfSpecCheckDigit (vals : List Nat) (weights : List Nat) : Nat :=
  let sum := (List.zipWith (fun a b => a * b) vals weights).sum
  if sum * 10 % 11 = 10 then 0 else sum * 10 % 11

/-- Spec wording of CPF validity for the digit string `d` (after stripping):
exactly 11 digits, not a repeated run, and the 10th and 11th digits equal the
check digits computed with weights `10..2` and `11..2`. -/
def cpfSpecValidb (d : String) : Bool :=
  let vals := d.data.map charVal
  decide (d.length = 11) && !(specAllSame d.data)
    && decide (vals.getD 9 0 = cpfSpecCheckDigit (vals.take 9) [10, 9, 8, 7, 6, 5, 4, 3, 2])
    && decide (vals.getD 10 0 = cpfSpecCheckDigit (vals.take 10) [11, 10, 9, 8, 7, 6, 5, 4, 3, 2])

/-- The `ValidationOutcome` invariant claimed by the spec: a valid outcome has
a `normalized` field and no `errors`; an invalid outcome has a non-empty
`errors` list and no `normalized`. -/
def outcomeWFb (o : Outcome) : Bool :=
  if o.valid then o.normalized.isSome && o.errors.isNone
  else o.normalized.isNone && o.errors.isSome && !(o.errors.getD []).isEmpty

/-- A structured (never-thrown) outcome: either valid, or invalid with a
non-empty error list. -/
def structuredb (o : Outcome) : Bool :=
  o.valid || (o.errors.isSome && !(o.errors.getD []).isEmpty)

/-- The fixed message templates the final revision's `validatePassword` can
emit for a given policy; none of them depends on the password. -/
def passwordMessages (policy : PasswordPolicy) : List String :=
  [msgMinLength (policy.minLength.getD 8), msgMaxLength (policy.maxLength.getD 128),
   msgUpper, msgLower, msgNumber, msgSymbol, msgCommon]

/-- The fixed message templates of the first revision's `validatePassword`. -/
def rev1PasswordMessages (policy : PasswordPolicy) : List String :=
  passwordMessages policy ++ [rev1MsgWhitespace]

/-- Masking property of a password outcome: `normalized` and `input` are
absent or the literal masking token, and every error is drawn from the fixed
template list. -/
def passwordMaskedb (o : Outcome) (msgs : List String) : Bool :=
  (o.normalized == none || o.normalized == some "***")
    && (o.input == none || o.input == some "***")
    && (o.errors.getD []).all (fun e => msgs.contains e)

/-- The policy literal of claim C6, with the keys it spells out:
`{upper:false, lower:false, number:false, symbol:false, forbidCommon:false,
minLength:0, maxLength:1000}`. -/
def claimC6Policy : PasswordPolicy :=
  { upper := some false, lower := some false, number := some false, symbol := some false
    forbidCommon := some false, minLength := some 0, maxLength := some 1000 }

/-- The same policy spelled with the key names the final revision's
`validatePassword` actually destructures. -/
def amendedC6Policy : PasswordPolicy :=
  { requireUpper := some false, requireLower := some false, requireNumber := some false
    requireSymbol := some false, forbidCommon := some false
    minLength := some 0, maxLength := some 1000 }

/-- An empty policy object `{}` (every requirement at its default). -/
def emptyPolicy : PasswordPolicy := {}

/-- The tags the detector may produce (or `none`). -/
def detectTags : List (Option String) :=
  [none, some "cpf", some "cnpj", some "cep", some "phone-br",
   some "email", some "rg", some "name"]

/-! ### Helper lemmas -/

theorem strData_append (a b : String) : (a ++ b).data = a.data ++ b.data := rfl

theorem strLength_data (s : String) : s.length = s.data.length := rfl

theorem onlyDigits_data (s : String) :
    (onlyDigits s).data = s.data.filter Char.isDigit := rfl

theorem onlyDigits_append (a b : String) :
    onlyDigits (a ++ b) = onlyDigits a ++ onlyDigits b := by
  apply String.ext
  simp [onlyDigits, strData_append, List.filter_append]

theorem onlyDigits_all_digits (s : String) :
    (onlyDigits s).data.all Char.isDigit = true := by
  simp only [onlyDigits_data, List.all_eq_true]
  intro c hc
  exact List.of_mem_filter hc

theorem onlyDigits_of_all_digits (s : String) (h : s.data.all Char.isDigit = true) :
    onlyDigits s = s := by
  apply String.ext
  simp only [onlyDigits_data]
  exact List.filter_eq_self.mpr (by simpa [List.all_eq_true] using h)

theorem all_digits_sliceStr (s : String) (hs : s.data.all Char.isDigit = true)
    (a b : Nat) : (sliceStr s a b).data.all Char.isDigit = true := by
  simp only [List.all_eq_true, sliceStr] at *
  intro c hc
  exact hs c (List.mem_of_mem_drop (List.mem_of_mem_take hc))

theorem all_digits_sliceFrom (s : String) (hs : s.data.all Char.isDigit = true)
    (a : Nat) : (sliceFrom s a).data.all Char.isDigit = true := by
  simp only [List.all_eq_true, sliceFrom] at *
  intro c hc
  exact hs c (List.mem_of_mem_drop hc)

theorem segments_eleven (l : List Char) :
    l.take 3 ++ ((l.drop 3).take 3 ++ ((l.drop 6).take 3 ++ l.drop 9)) = l := by
  conv_rhs => rw [← List.take_append_drop 3 l]
  congr 1
  conv_rhs => rw [← List.take_append_drop 3 (l.drop 3), List.drop_drop]
  congr 1
  conv_rhs => rw [← List.take_append_drop 3 (l.drop 6), List.drop_drop]

theorem onlyDigits_cpfFormat (d : String) (hd : d.data.all Char.isDigit = true) :
    onlyDigits (cpfFormat d) = d := by
  apply String.ext
  have h3 := all_digits_sliceStr d hd 0 3
  have h6 := all_digits_sliceStr d hd 3 6
  have h9 := all_digits_sliceStr d hd 6 9
  have hrest := all_digits_sliceFrom d hd 9
  simp only [cpfFormat, onlyDigits_append,
    onlyDigits_of_all_digits _ h3, onlyDigits_of_all_digits _ h6,
    onlyDigits_of_all_digits _ h9, onlyDigits_of_all_digits _ hrest,
    strData_append]
  simp [(rfl : onlyDigits "." = ""), (rfl : onlyDigits "-" = ""), sliceStr, sliceFrom]
  exact segments_eleven d.data

theorem segments_fourteen (l : List Char) :
    l.take 2 ++ ((l.drop 2).take 3 ++ ((l.drop 5).take 3
      ++ ((l.drop 8).take 4 ++ l.drop 12))) = l := by
  conv_rhs => rw [← List.take_append_drop 2 l]
  congr 1
  conv_rhs => rw [← List.take_append_drop 3 (l.drop 2), List.drop_drop]
  congr 1
  conv_rhs => rw [← List.take_append_drop 3 (l.drop 5), List.drop_drop]
  congr 1
  conv_rhs => rw [← List.take_append_drop 4 (l.drop 8), List.drop_drop]

theorem onlyDigits_cnpjFormat (d : String) (hd : d.data.all Char.isDigit = true) :
    onlyDigits (cnpjFormat d) = d := by
  apply String.ext
  have h2 := all_digits_sliceStr d hd 0 2
  have h5 := all_digits_sliceStr d hd 2 5
  have h8 := all_digits_sliceStr d hd 5 8
  have h12 := all_digits_sliceStr d hd 8 12
  have hrest := all_digits_sliceFrom d hd 12
  simp only [cnpjFormat, onlyDigits_append,
    onlyDigits_of_all_digits _ h2, onlyDigits_of_all_digits _ h5,
    onlyDigits_of_all_digits _ h8, onlyDigits_of_all_digits _ h12,
    onlyDigits_of_all_digits _ hrest, strData_append]
  simp [(rfl : onlyDigits "." = ""), (rfl : onlyDigits "/" = ""),
    (rfl : onlyDigits "-" = ""), sliceStr, sliceFrom]
  exact segments_fourteen d.data

theorem onlyDigits_cepFormat (d : String) (hd : d.data.all Char.isDigit = true) :
    onlyDigits (sliceStr d 0 5 ++ "-" ++ sliceFrom d 5) = d := by
  apply String.ext
  have h5 := all_digits_sliceStr d hd 0 5
  have hrest := all_digits_sliceFrom d hd 5
  simp only [onlyDigits_append,
    onlyDigits_of_all_digits _ h5, onlyDigits_of_all_digits _ hrest, strData_append]
  have hdash : (onlyDigits "-").data = [] := by rfl
  simp [hdash, sliceStr, sliceFrom]

theorem splitOn2_ne_nil (cs : List Char) : splitOn2 cs ≠ [] := by
  match cs with
  | [] => simp [splitOn2]
  | [c] => simp [splitOn2]
  | c1 :: c2 :: rest =>
    rw [splitOn2]
    split
    · simp
    · cases h : splitOn2 (c2 :: rest) <;> simp

theorem splitOn2_of_no_comma (cs : List Char) (h : ',' ∉ cs) : splitOn2 cs = [cs] := by
  match cs with
  | [] => simp [splitOn2]
  | [c] => simp [splitOn2]
  | c1 :: c2 :: rest =>
    rw [splitOn2]
    have hc1 : c1 ≠ ',' := fun he => h (he ▸ List.mem_cons_self _ _)
    rw [if_neg (by rintro ⟨h1, _⟩; exact hc1 h1)]
    have ih : splitOn2 (c2 :: rest) = [c2 :: rest] :=
      splitOn2_of_no_comma (c2 :: rest) (fun hm => h (List.mem_cons_of_mem _ hm))
    rw [ih]

theorem splitOn2_cons_sep (m t : List Char) (h : ',' ∉ m) :
    splitOn2 (m ++ ',' :: ' ' :: t) = m :: splitOn2 t := by
  match m with
  | [] => rw [List.nil_append, splitOn2, if_pos ⟨rfl, rfl⟩]
  | [c] =>
    have hc : c ≠ ',' := fun he => h (he ▸ List.mem_cons_self _ _)
    rw [List.cons_append, List.nil_append, splitOn2,
      if_neg (by rintro ⟨h1, _⟩; exact hc h1)]
    rw [splitOn2, if_pos ⟨rfl, rfl⟩]
  | c :: c2 :: m' =>
    have hc : c ≠ ',' := fun he => h (he ▸ List.mem_cons_self _ _)
    have ih : splitOn2 ((c2 :: m') ++ ',' :: ' ' :: t) = (c2 :: m') :: splitOn2 t :=
      splitOn2_cons_sep (c2 :: m') t (fun hm => h (List.mem_cons_of_mem _ hm))
    rw [List.cons_append, List.cons_append, splitOn2]
    rw [if_neg (by rintro ⟨h1, _⟩; exact hc h1)]
    rw [List.cons_append] at ih
    rw [ih]

theorem digitChar_isDigit (n : Nat) (h : n < 10) : (Nat.digitChar n).isDigit = true := by
  interval_cases n <;> rfl

theorem toDigitsCore_digits (fuel : Nat) : ∀ (n : Nat) (ds : List Char),
    ds.all Char.isDigit = true → (Nat.toDigitsCore 10 fuel n ds).all Char.isDigit = true := by
  induction fuel with
  | zero => intro n ds h; simpa [Nat.toDigitsCore] using h
  | succ fuel ih =>
    intro n ds h
    rw [Nat.toDigitsCore]
    have hd : ((n % 10).digitChar :: ds).all Char.isDigit = true := by
      simp only [List.all_cons, Bool.and_eq_true]
      exact ⟨digitChar_isDigit _ (Nat.mod_lt _ (by norm_num)), h⟩
    split
    · exact hd
    · exact ih _ _ hd

theorem reprNat_digits (n : Nat) : (Nat.repr n).data.all Char.isDigit = true :=
  toDigitsCore_digits (n + 1) n [] rfl

theorem comma_not_in_repr (n : Nat) : ',' ∉ (Nat.repr n).data := by
  intro hm
  have h := reprNat_digits n
  rw [List.all_eq_true] at h
  exact absurd (h _ hm) (by decide)

theorem comma_not_in_msgMinLength (n : Nat) : ',' ∉ (msgMinLength n).data := by
  simp only [msgMinLength, strData_append, List.mem_append]
  rintro ((h | h) | h)
  · revert h; decide
  · exact comma_not_in_repr n h
  · revert h; decide

theorem comma_not_in_msgMaxLength (n : Nat) : ',' ∉ (msgMaxLength n).data := by
  simp only [msgMaxLength, strData_append, List.mem_append]
  rintro ((h | h) | h)
  · revert h; decide
  · exact comma_not_in_repr n h
  · revert h; decide

theorem passwordMessages_comma_free (policy : PasswordPolicy) :
    ∀ m ∈ passwordMessages policy, ',' ∉ m.data := by
  intro m hm
  simp only [passwordMessages, List.mem_cons, List.not_mem_nil, or_false] at hm
  rcases hm with rfl | rfl | rfl | rfl | rfl | rfl | rfl
  · exact comma_not_in_msgMinLength _
  · exact comma_not_in_msgMaxLength _
  all_goals decide

theorem mem_ite_singleton {α : Type} {c : Prop} [Decidable c] {x m : α}
    (h : m ∈ (if c then [x] else [])) : m = x := by
  split at h
  · simpa using h
  · simp at h

theorem passwordViolations_mem (s : String) (policy : PasswordPolicy) :
    ∀ m ∈ passwordViolations s policy, m ∈ passwordMessages policy := by
  intro m hm
  simp only [passwordViolations, List.append_assoc, List.mem_append] at hm
  rcases hm with h | h | h | h | h | h | h <;>
    rw [mem_ite_singleton h] <;> simp [passwordMessages]

theorem rev1PasswordViolations_mem (s : String) (policy : PasswordPolicy) :
    ∀ m ∈ rev1PasswordViolations s policy, m ∈ rev1PasswordMessages policy := by
  intro m hm
  simp only [rev1PasswordViolations, List.append_assoc, List.mem_append] at hm
  rcases hm with h | h | h | h | h | h | h | h <;>
    rw [mem_ite_singleton h] <;> simp [rev1PasswordMessages, passwordMessages]

theorem splitJoin (msgs : List String) (h1 : msgs ≠ [])
    (h2 : ∀ m ∈ msgs, ',' ∉ m.data) :
    splitCommaSpace (joinCommaSpace msgs) = msgs := by
  match msgs with
  | [] => exact absurd rfl h1
  | [m] =>
    show (splitOn2 (joinSepChars [m.data])).map (fun l => (⟨l⟩ : String)) = [m]
    rw [joinSepChars, splitOn2_of_no_comma m.data (h2 m (List.mem_cons_self _ _))]
    rfl
  | m :: m2 :: rest =>
    show (splitOn2 (joinSepChars (m.data :: (m2 :: rest).map String.data))).map
      (fun l => (⟨l⟩ : String)) = m :: m2 :: rest
    have hjoin : joinSepChars (m.data :: (m2 :: rest).map String.data)
        = m.data ++ ',' :: ' ' :: joinSepChars ((m2 :: rest).map String.data) := by
      simp [joinSepChars]
    rw [hjoin, splitOn2_cons_sep _ _ (h2 m (List.mem_cons_self _ _))]
    have ih : splitCommaSpace (joinCommaSpace (m2 :: rest)) = m2 :: rest :=
      splitJoin (m2 :: rest) (by simp) (fun x hx => h2 x (List.mem_cons_of_mem _ hx))
    simp only [splitCommaSpace, joinCommaSpace, List.map_cons] at ih
    simpa using ih

theorem validatePassword_failure (raw : Option String) (policy : PasswordPolicy)
    (h : (passwordViolations (orEmpty raw) policy).isEmpty = false) :
    validatePassword raw policy =
      { valid := false
        errors := some (passwordViolations (orEmpty raw) policy)
        errorCode := some "PASSWORD_POLICY_VIOLATION"
        input := some "***" } := by
  have hne : passwordViolations (orEmpty raw) policy ≠ [] := by
    intro he
    rw [he] at h
    simp at h
  have hcf : ∀ m ∈ passwordViolations (orEmpty raw) policy, ',' ∉ m.data :=
    fun m hm => passwordMessages_comma_free policy m (passwordViolations_mem _ _ m hm)
  simp only [validatePassword]
  rw [if_neg (by simp [h]), splitJoin _ hne hcf]

theorem validateCPF_wf (raw : Option String) : outcomeWFb (validateCPF raw) = true := by
  simp only [validateCPF]
  split_ifs <;> rfl

theorem validateCNPJ_wf (raw : Option String) : outcomeWFb (validateCNPJ raw) = true := by
  simp only [validateCNPJ]
  split_ifs <;> rfl

theorem validateEmail_wf (raw : Option String) : outcomeWFb (validateEmail raw) = true := by
  simp only [validateEmail]
  split_ifs <;> rfl

theorem validatePhoneBR_wf (raw : Option String) : outcomeWFb (validatePhoneBR raw) = true := by
  simp only [validatePhoneBR]
  split_ifs <;> rfl

theorem validateCEP_wf (raw : Option String) : outcomeWFb (validateCEP raw) = true := by
  simp only [validateCEP]
  split_ifs <;> rfl

theorem validateRG_wf (raw : Option String) : outcomeWFb (validateRG raw) = true := by
  simp only [validateRG]
  split_ifs <;> rfl

theorem validateName_wf (raw : Option String) : outcomeWFb (validateName raw) = true := by
  simp only [validateName]
  split_ifs <;> rfl

theorem validatePassword_wf (raw : Option String) (policy : PasswordPolicy) :
    outcomeWFb (validatePassword raw policy) = true := by
  by_cases h : (passwordViolations (orEmpty raw) policy).isEmpty = true
  · simp only [validatePassword]
    rw [if_pos h]
    rfl
  · have h' : (passwordViolations (orEmpty raw) policy).isEmpty = false :=
      Bool.eq_false_iff.mpr h
    rw [validatePassword_failure raw policy h']
    simp [outcomeWFb, h']

theorem structured_of_wf (o : Outcome) (h : outcomeWFb o = true) : structuredb o = true := by
  unfold outcomeWFb at h
  unfold structuredb
  cases hv : o.valid
  · rw [hv] at h
    simp only [if_neg Bool.false_ne_true, Bool.and_eq_true] at h
    simp [hv, h.1.2, h.2]
  · simp [hv]

theorem detectType_mem_tags (raw : Option String) :
    detectTags.contains (detectType raw) = true := by
  cases raw with
  | none => rfl
  | some s =>
    simp only [detectType]
    split_ifs <;> rfl

theorem exists_eleven (l : List Char) (h : l.length = 11) :
    ∃ a0 a1 a2 a3 a4 a5 a6 a7 a8 a9 a10 : Char,
      l = [a0, a1, a2, a3, a4, a5, a6, a7, a8, a9, a10] := by
  match l, h with
  | [b0, b1, b2, b3, b4, b5, b6, b7, b8, b9, b10], _ =>
    exact ⟨b0, b1, b2, b3, b4, b5, b6, b7, b8, b9, b10, rfl⟩

theorem cpfCheck1_explicit (d : String) (a0 a1 a2 a3 a4 a5 a6 a7 a8 a9 a10 : Char)
    (hdata : d.data = [a0, a1, a2, a3, a4, a5, a6, a7, a8, a9, a10]) :
    cpfCheck1 d = cpfSpecCheckDigit ((d.data.map charVal).take 9) [10, 9, 8, 7, 6, 5, 4, 3, 2] := by
  have hrange : List.range 9 = [0, 1, 2, 3, 4, 5, 6, 7, 8] := by rfl
  have hsum : (List.range 9).foldl (fun acc i => acc + digitAt d i * (10 - i)) 0
      = (List.zipWith (fun a b => a * b) ((d.data.map charVal).take 9)
          [10, 9, 8, 7, 6, 5, 4, 3, 2]).sum := by
    rw [hrange, hdata]
    simp only [digitAt, hdata, List.foldl, List.map, List.take, List.zipWith, List.sum_cons,
      List.sum_nil, List.getD]
    simp [List.getElem?_cons]
    omega
  simp only [cpfCheck1, cpfSpecCheckDigit]
  rw [hsum]
  have h11 : (List.zipWith (fun a b => a * b) ((d.data.map charVal).take 9)
      [10, 9, 8, 7, 6, 5, 4, 3, 2]).sum * 10 % 11 ≠ 11 := by omega
  by_cases h10 : (List.zipWith (fun a b => a * b) ((d.data.map charVal).take 9)
      [10, 9, 8, 7, 6, 5, 4, 3, 2]).sum * 10 % 11 = 10
  · simp [h10]
  · simp [h10, h11]

theorem cpfCheck2_explicit (d : String) (a0 a1 a2 a3 a4 a5 a6 a7 a8 a9 a10 : Char)
    (hdata : d.data = [a0, a1, a2, a3, a4, a5, a6, a7, a8, a9, a10]) :
    cpfCheck2 d = cpfSpecCheckDigit ((d.data.map charVal).take 10)
      [11, 10, 9, 8, 7, 6, 5, 4, 3, 2] := by
  have hrange : List.range 10 = [0, 1, 2, 3, 4, 5, 6, 7, 8, 9] := by rfl
  have hsum : (List.range 10).foldl (fun acc i => acc + digitAt d i * (11 - i)) 0
      = (List.zipWith (fun a b => a * b) ((d.data.map charVal).take 10)
          [11, 10, 9, 8, 7, 6, 5, 4, 3, 2]).sum := by
    rw [hrange, hdata]
    simp only [digitAt, hdata, List.foldl, List.map, List.take, List.zipWith, List.sum_cons,
      List.sum_nil, List.getD]
    simp [List.getElem?_cons]
    omega
  simp only [cpfCheck2, cpfSpecCheckDigit]
  rw [hsum]
  have h11 : (List.zipWith (fun a b => a * b) ((d.data.map charVal).take 10)
      [11, 10, 9, 8, 7, 6, 5, 4, 3, 2]).sum * 10 % 11 ≠ 11 := by omega
  by_cases h10 : (List.zipWith (fun a b => a * b) ((d.data.map charVal).take 10)
      [11, 10, 9, 8, 7, 6, 5, 4, 3, 2]).sum * 10 % 11 = 10
  · simp [h10]
  · simp [h10, h11]

theorem validateCPF_valid_eq_spec (raw : Option String) :
    (validateCPF raw).valid = cpfSpecValidb (onlyDigits (orEmpty raw)) := by
  set d := onlyDigits (orEmpty raw) with hd
  by_cases hlen : d.length = 11
  · have hdig := onlyDigits_all_digits (orEmpty raw)
    rw [← hd] at hdig
    obtain ⟨a0, a1, a2, a3, a4, a5, a6, a7, a8, a9, a10, hdata⟩ :=
      exists_eleven d.data (by rw [← strLength_data]; exact hlen)
    have hai : a0.isDigit = true := by
      rw [hdata] at hdig
      simp at hdig
      exact hdig.1
    have hrepeq : isRepeated d 11 = specAllSame d.data := by
      rw [isRepeated, if_neg (by omega), hdata, specAllSame]
      simp [hai]
    have he1 := cpfCheck1_explicit d a0 a1 a2 a3 a4 a5 a6 a7 a8 a9 a10 hdata
    have he2 := cpfCheck2_explicit d a0 a1 a2 a3 a4 a5 a6 a7 a8 a9 a10 hdata
    have hd9 : digitAt d 9 = (d.data.map charVal).getD 9 0 := by
      unfold digitAt
      rw [hdata]
      rfl
    have hd10 : digitAt d 10 = (d.data.map charVal).getD 10 0 := by
      unfold digitAt
      rw [hdata]
      rfl
    have hc9 : decide ((d.data.map charVal).getD 9 0
        = cpfSpecCheckDigit ((d.data.map charVal).take 9) [10, 9, 8, 7, 6, 5, 4, 3, 2])
        = decide (cpfCheck1 d = digitAt d 9) := by
      rw [← hd9, ← he1]
      simp [eq_comm]
    have hc10 : decide ((d.data.map charVal).getD 10 0
        = cpfSpecCheckDigit ((d.data.map charVal).take 10) [11, 10, 9, 8, 7, 6, 5, 4, 3, 2])
        = decide (cpfCheck2 d = digitAt d 10) := by
      rw [← hd10, ← he2]
      simp [eq_comm]
    simp only [validateCPF, ← hd]
    rw [if_neg (by simp [hlen])]
    simp only [cpfSpecValidb]
    rw [hc9, hc10, hrepeq, (by simp [hlen] : decide (d.length = 11) = true)]
    by_cases hrep : specAllSame d.data = true
    · rw [if_pos hrep]
      simp [failureOutcome, hrep]
    · rw [if_neg hrep]
      have hrep' : specAllSame d.data = false := Bool.eq_false_iff.mpr hrep
      by_cases h1 : cpfCheck1 d = digitAt d 9
      · rw [if_neg (by simpa using h1)]
        by_cases h2 : cpfCheck2 d = digitAt d 10
        · rw [if_neg (by simpa using h2)]
          simp [hrep', h1, h2]
        · rw [if_pos h2]
          simp [failureOutcome, h2]
      · rw [if_pos h1]
        simp [failureOutcome, h1]
  · simp only [validateCPF, ← hd]
    rw [if_pos hlen]
    simp [failureOutcome, cpfSpecValidb, hlen]

theorem validateCPF_roundtrip (raw : Option String) (n : String)
    (hv : (validateCPF raw).valid = true)
    (hn : (validateCPF raw).normalized = some n) :
    (validateCPF (some n)).valid = true ∧ (validateCPF (some n)).normalized = some n := by
  simp only [validateCPF] at hv hn
  split_ifs at hv hn with hc1 hc2 hc3 hc4
  · simp [failureOutcome] at hv
  · simp [failureOutcome] at hv
  · simp [failureOutcome] at hv
  · simp [failureOutcome] at hv
  · simp only [Option.some.injEq] at hn
    have hstrip : onlyDigits (orEmpty (some n)) = onlyDigits (orEmpty raw) := by
      show onlyDigits n = _
      rw [← hn]
      exact onlyDigits_cpfFormat _ (onlyDigits_all_digits _)
    simp only [validateCPF]
    rw [hstrip]
    rw [if_neg hc1, if_neg hc2, if_neg hc3, if_neg hc4]
    exact ⟨rfl, by rw [hn]⟩

theorem validateCNPJ_roundtrip (raw : Option String) (n : String)
    (hv : (validateCNPJ raw).valid = true)
    (hn : (validateCNPJ raw).normalized = some n) :
    (validateCNPJ (some n)).valid = true ∧ (validateCNPJ (some n)).normalized = some n := by
  simp only [validateCNPJ] at hv hn
  split_ifs at hv hn with hc1 hc2 hc3
  · simp [failureOutcome] at hv
  · simp [failureOutcome] at hv
  · simp [failureOutcome] at hv
  · simp only [Option.some.injEq] at hn
    have hstrip : onlyDigits (orEmpty (some n)) = onlyDigits (orEmpty raw) := by
      show onlyDigits n = _
      rw [← hn]
      exact onlyDigits_cnpjFormat _ (onlyDigits_all_digits _)
    simp only [validateCNPJ]
    rw [hstrip]
    rw [if_neg hc1, if_neg hc2, if_neg hc3]
    exact ⟨rfl, by rw [hn]⟩

theorem validateCEP_roundtrip (raw : Option String) (n : String)
    (hv : (validateCEP raw).valid = true)
    (hn : (validateCEP raw).normalized = some n) :
    (validateCEP (some n)).valid = true ∧ (validateCEP (some n)).normalized = some n := by
  simp only [validateCEP] at hv hn
  split_ifs at hv hn with hc1
  · simp [failureOutcome] at hv
  · simp only [Option.some.injEq] at hn
    have hstrip : onlyDigits (orEmpty (some n)) = onlyDigits (orEmpty raw) := by
      show onlyDigits n = _
      rw [← hn]
      exact onlyDigits_cepFormat _ (onlyDigits_all_digits _)
    simp only [validateCEP]
    rw [hstrip]
    rw [if_neg hc1]
    exact ⟨rfl, by rw [hn]⟩

/-! ### Claim theorems -/

/-- C2: for every input, `validateCPF` reports `valid = true` exactly when,
after stripping non-digits, 11 digits remain, they are not a single repeated
digit, and both check digits match the weighted-sum algorithm (weights `10..2`
then `11..2`, `(sum*10) mod 11`, `10` mapped to `0`); and
`validateCPF("111.444.777-35")` is valid with normalized `"111.444.777-35"`. -/
theorem c2_cpf_spec_equivalence :
    (∀ raw : Option String,
      (validateCPF raw).valid = cpfSpecValidb (onlyDigits (orEmpty raw)))
    ∧ (validateCPF (some "111.444.777-35")).valid = true
    ∧ (validateCPF (some "111.444.777-35")).normalized = some "111.444.777-35" :=
  ⟨validateCPF_valid_eq_spec, by decide, by decide⟩

/-- C3: evaluation of `validatePhoneBR` at the failing landline input.  A
10-digit landline is normalised with five digits before the hyphen and only
three after (`"1133334444"` gives `"+55 (11) 33334-444"`), against the claimed
`+55 (DD) XXXX-XXXX`; the 11-digit mobile case does match the claim, and the
first revision instead mangles the mobile split (`"9876-54321"`). -/
theorem c3_phone_landline_format :
    (validatePhoneBR (some "1133334444")).valid = true
    ∧ (validatePhoneBR (some "1133334444")).normalized = some "+55 (11) 33334-444"
    ∧ (validatePhoneBR (some "11987654321")).valid = true
    ∧ (validatePhoneBR (some "11987654321")).normalized = some "+55 (11) 98765-4321"
    ∧ (rev1ValidatePhoneBR (some "11987654321")).normalized = some "+55 (11) 9876-54321" :=
  ⟨by decide, by decide, by decide, by decide, by decide⟩

/-- C4 (counterexample): the first revision's `validatePassword` (cited at
`db.js` lines 96-125) accepts a conforming password with the bare
`{ valid: true }` — no `normalized` field — violating the claimed outcome
invariant. -/
theorem c4_counterexample :
    (rev1ValidatePassword (some "Abcdef1!") emptyPolicy).valid = true
    ∧ (rev1ValidatePassword (some "Abcdef1!") emptyPolicy).normalized = none :=
  ⟨by decide, by decide⟩

/-- C4 (amended): every validator of the final revision satisfies the
`ValidationOutcome` invariant: `valid = true` implies `normalized` present and
`errors` absent, `valid = false` implies a non-empty `errors` list and no
`normalized`. -/
theorem c4_amended_outcome_invariant (raw : Option String) (policy : PasswordPolicy) :
    outcomeWFb (validateCPF raw) = true ∧ outcomeWFb (validateCNPJ raw) = true
    ∧ outcomeWFb (validateEmail raw) = true
    ∧ outcomeWFb (validatePassword raw policy) = true
    ∧ outcomeWFb (validatePhoneBR raw) = true ∧ outcomeWFb (validateCEP raw) = true
    ∧ outcomeWFb (validateRG raw) = true ∧ outcomeWFb (validateName raw) = true :=
  ⟨validateCPF_wf raw, validateCNPJ_wf raw, validateEmail_wf raw,
   validatePassword_wf raw policy, validatePhoneBR_wf raw, validateCEP_wf raw,
   validateRG_wf raw, validateName_wf raw⟩

/-- C5 (counterexample): the first revision's `validateCPF` (cited at `db.js`
lines 39-58) accumulates two structural errors for a 14-digit repeated input,
against the claimed single-reason reporting. -/
theorem c5_counterexample :
    (rev1ValidateCPF (some "00000000000000")).valid = false
    ∧ (rev1ValidateCPF (some "00000000000000")).errors
        = some ["CPF deve ter 11 dígitos", "CPF inválido (sequência repetida)"] :=
  ⟨by decide, by decide⟩

/-- C5 (amended): in the final revision, every rejection by `validateCPF` or
`validateCNPJ` reports exactly one reason, chosen with the priority wrong
length → repeated sequence → check-digit mismatch. -/
theorem c5_amended_single_error (raw : Option String) :
    ((validateCPF raw).valid = false →
      ∃ m : String, (validateCPF raw).errors = some [m]
        ∧ (validateCPF raw).errorCode = some
            (if (onlyDigits (orEmpty raw)).length ≠ 11 then "INVALID_LENGTH"
             else if isRepeated (onlyDigits (orEmpty raw)) 11 then "REPEATED_SEQUENCE"
             else "INVALID_CHECK_DIGIT"))
    ∧ ((validateCNPJ raw).valid = false →
      ∃ m : String, (validateCNPJ raw).errors = some [m]
        ∧ (validateCNPJ raw).errorCode = some
            (if (onlyDigits (orEmpty raw)).length ≠ 14 then "INVALID_LENGTH"
             else if isRepeated (onlyDigits (orEmpty raw)) 14 then "REPEATED_SEQUENCE"
             else "INVALID_CHECK_DIGIT")) := by
  constructor
  · intro hv
    simp only [validateCPF] at hv ⊢
    split_ifs at hv ⊢ with h1 h2 h3 h4
    · exact ⟨_, rfl, rfl⟩
    · exact ⟨_, rfl, rfl⟩
    · exact ⟨_, rfl, rfl⟩
    · exact ⟨_, rfl, rfl⟩
  · intro hv
    simp only [validateCNPJ] at hv ⊢
    split_ifs at hv ⊢ with h1 h2 h3
    · exact ⟨_, rfl, rfl⟩
    · exact ⟨_, rfl, rfl⟩
    · exact ⟨_, rfl, rfl⟩

/-- C5 (witness): the amended theorem applied to the concrete input `"123"`. -/
theorem c5_witness : (validateCPF (some "123")).errorCode = some "INVALID_LENGTH" := by
  obtain ⟨m, hm, hcode⟩ := (c5_amended_single_error (some "123")).1 (by decide)
  rw [hcode, if_pos (by decide)]

/-- C9: over any string-or-null input, every validator of the final revision
returns a structured outcome (valid, or invalid with a non-empty error list)
and the detector returns one of the eight tags or `none`; nothing escapes as
an exception. -/
theorem c9_total_structured (raw : Option String) (policy : PasswordPolicy) :
    structuredb (validateCPF raw) = true ∧ structuredb (validateCNPJ raw) = true
    ∧ structuredb (validateEmail raw) = true
    ∧ structuredb (validatePassword raw policy) = true
    ∧ structuredb (validatePhoneBR raw) = true ∧ structuredb (validateCEP raw) = true
    ∧ structuredb (validateRG raw) = true ∧ structuredb (validateName raw) = true
    ∧ detectTags.contains (detectType raw) = true :=
  ⟨structured_of_wf _ (validateCPF_wf raw), structured_of_wf _ (validateCNPJ_wf raw),
   structured_of_wf _ (validateEmail_wf raw), structured_of_wf _ (validatePassword_wf raw policy),
   structured_of_wf _ (validatePhoneBR_wf raw), structured_of_wf _ (validateCEP_wf raw),
   structured_of_wf _ (validateRG_wf raw), structured_of_wf _ (validateName_wf raw),
   detectType_mem_tags raw⟩

/-- C10: `validatePhoneBR` strips a leading `55` unconditionally, so every
input whose digit string has 11 digits and starts with `55` loses that prefix,
leaving 9 digits, and is rejected with `INVALID_LENGTH`; with the country code
also present (13 digits) the same number validates. -/
theorem c10_phone_country_code :
    (∀ raw : Option String,
      (onlyDigits (orEmpty raw)).length = 11 →
      startsWith55 (onlyDigits (orEmpty raw)) = true →
      (validatePhoneBR raw).valid = false
        ∧ (validatePhoneBR raw).errorCode = some "INVALID_LENGTH"
        ∧ (validatePhoneBR raw).errors
            = some ["Telefone deve ter 10 (fixo) ou 11 dígitos (celular)"])
    ∧ (validatePhoneBR (some "5555987654321")).valid = true
    ∧ (validatePhoneBR (some "5555987654321")).normalized = some "+55 (55) 98765-4321" := by
  refine ⟨?_, by decide, by decide⟩
  intro raw hlen h55
  have hl : (sliceFrom (onlyDigits (orEmpty raw)) 2).length = 9 := by
    rw [strLength_data] at hlen
    simp [sliceFrom, strLength_data, hlen]
  simp only [validatePhoneBR]
  rw [if_pos h55, if_pos ⟨by omega, by omega⟩]
  exact ⟨rfl, rfl, rfl⟩

/-- C10 (witness): the theorem applied to the concrete area-code-55 mobile
number `"55987654321"`. -/
theorem c10_witness :
    (validatePhoneBR (some "55987654321")).valid = false
    ∧ (validatePhoneBR (some "55987654321")).errorCode = some "INVALID_LENGTH" := by
  have h := c10_phone_country_code.1 (some "55987654321") (by decide) (by decide)
  exact ⟨h.1, h.2.1⟩

/-- C6 (counterexample): with the policy literal of the claim
(`upper:false, ..., minLength:0, maxLength:1000`), the final revision's
`validatePassword` still rejects the non-empty unpadded string `"a"`, because
it reads the flags under the names `requireUpper`/`requireLower`/... and so
leaves every requirement enabled. -/
theorem c6_counterexample :
    (validatePassword (some "a") claimC6Policy).valid = false := by decide

/-- C6 (amended): with the flags spelled the way `validatePassword`
destructures them (`requireUpper:false, ..., forbidCommon:false, minLength:0,
maxLength:1000`), every string of length at most 1000 — padded or not — is
accepted. -/
theorem c6_amended_permissive_policy (raw : Option String)
    (h : (orEmpty raw).length ≤ 1000) :
    (validatePassword raw amendedC6Policy).valid = true := by
  have hc : (passwordViolations (orEmpty raw) amendedC6Policy).isEmpty = true := by
    simp [passwordViolations, amendedC6Policy, Nat.not_lt.mpr h]
  simp only [validatePassword]
  rw [if_pos hc]

/-- C6 (witness): the amended theorem applied to the concrete string `"a"`. -/
theorem c6_witness : (validatePassword (some "a") amendedC6Policy).valid = true :=
  c6_amended_permissive_policy (some "a") (by decide)

/-- C1 (counterexample): `"11987654374"` is an 11-digit string accepted by
both `validateCPF` and `validatePhoneBR`, yet the final revision's
`detectType` classifies it as `cpf`, not `phone-br`. -/
theorem c1_counterexample :
    (validateCPF (some "11987654374")).valid = true
    ∧ (validatePhoneBR (some "11987654374")).valid = true
    ∧ detectType (some "11987654374") = some "cpf" :=
  ⟨by decide, by decide, by decide⟩

/-- C1 (amended): the final revision's `detectType` tests CPF before any
phone check: an 11-digit string accepted by `validateCPF` is always classified
`cpf` (even when `validatePhoneBR` also accepts it), and an 11-digit string
rejected by `validateCPF` whose first two digits pass the DDD whitelist is
classified `phone-br`. -/
theorem c1_amended_detect_priority (s : String) :
    ((onlyDigits s).length = 11 → (validateCPF (some s)).valid = true →
      detectType (some s) = some "cpf")
    ∧ ((onlyDigits s).length = 11 → (validateCPF (some s)).valid = false →
      validDDD (sliceStr (onlyDigits s) 0 2) = true →
      detectType (some s) = some "phone-br") := by
  constructor
  · intro hlen hv
    have hne : ¬(s.data.isEmpty = true) := by
      cases hd : s.data
      · rw [strLength_data, onlyDigits_data, hd] at hlen
        simp at hlen
      · simp [hd]
    simp only [detectType]
    rw [if_neg hne, if_pos ⟨hlen, hv⟩]
  · intro hlen hv hddd
    have hne : ¬(s.data.isEmpty = true) := by
      cases hd : s.data
      · rw [strLength_data, onlyDigits_data, hd] at hlen
        simp at hlen
      · simp [hd]
    simp only [detectType]
    rw [if_neg hne]
    rw [if_neg (by rintro ⟨-, hvv⟩; rw [hv] at hvv; exact Bool.false_ne_true hvv)]
    rw [if_neg (by rintro ⟨h14, -⟩; omega)]
    rw [if_neg (by intro h8; omega)]
    rw [if_pos ⟨Or.inr hlen, hddd⟩]

/-- C1 (witness): the amended theorem applied to the valid-CPF string
`"11987654374"` and to the CPF-invalid phone string `"11987654321"`. -/
theorem c1_witness :
    detectType (some "11987654374") = some "cpf"
    ∧ detectType (some "11987654321") = some "phone-br" :=
  ⟨(c1_amended_detect_priority "11987654374").1 (by decide) (by decide),
   (c1_amended_detect_priority "11987654321").2 (by decide) (by decide) (by decide)⟩

/-- C7 (counterexample): the first revision's `validatePassword` (cited at
`db.js` lines 96-125) returns a successful outcome with no `normalized` field
at all, so the normalized field is not "always the fixed masking token". -/
theorem c7_counterexample :
    (rev1ValidatePassword (some "Xyzdef2#") emptyPolicy).valid = true
    ∧ (rev1ValidatePassword (some "Xyzdef2#") emptyPolicy).normalized = none :=
  ⟨by decide, by decide⟩

/-- C7 (amended): for every raw password and policy, neither revision's
`validatePassword` ever exposes the password: `normalized` and the echoed
`input` are absent or the masking token `***`, and every reported error is
drawn from the fixed template list determined by the policy alone (the final
revision masks `normalized` as `***` on success; the first revision omits the
field). -/
theorem c7_amended_password_masking (raw : Option String) (policy : PasswordPolicy) :
    passwordMaskedb (validatePassword raw policy) (passwordMessages policy) = true
    ∧ passwordMaskedb (rev1ValidatePassword raw policy) (rev1PasswordMessages policy) = true := by
  constructor
  · by_cases h : (passwordViolations (orEmpty raw) policy).isEmpty = true
    · simp only [validatePassword]
      rw [if_pos h]
      rfl
    · have h' := Bool.eq_false_iff.mpr h
      rw [validatePassword_failure raw policy h']
      have hmem := passwordViolations_mem (orEmpty raw) policy
      simp [passwordMaskedb, List.all_eq_true]
      intro m hm
      exact hmem m hm
  · by_cases h : (rev1PasswordViolations (orEmpty raw) policy).isEmpty = true
    · simp only [rev1ValidatePassword]
      rw [if_neg (by simp [h])]
      rfl
    · simp only [rev1ValidatePassword]
      rw [if_pos (by simp [Bool.eq_false_iff.mpr h])]
      have hmem := rev1PasswordViolations_mem (orEmpty raw) policy
      simp [passwordMaskedb, List.all_eq_true]
      intro m hm
      exact hmem m hm

/-- C8: for every input accepted by `validateCPF`, `validateCNPJ` or
`validateCEP`, feeding the returned normalized string back into the same
validator yields `valid = true` with the identical normalized result. -/
theorem c8_roundtrip_normalized (raw : Option String) (n : String) :
    ((validateCPF raw).valid = true → (validateCPF raw).normalized = some n →
      (validateCPF (some n)).valid = true ∧ (validateCPF (some n)).normalized = some n)
    ∧ ((validateCNPJ raw).valid = true → (validateCNPJ raw).normalized = some n →
      (validateCNPJ (some n)).valid = true ∧ (validateCNPJ (some n)).normalized = some n)
    ∧ ((validateCEP raw).valid = true → (validateCEP raw).normalized = some n →
      (validateCEP (some n)).valid = true ∧ (validateCEP (some n)).normalized = some n) :=
  ⟨validateCPF_roundtrip raw n, validateCNPJ_roundtrip raw n, validateCEP_roundtrip raw n⟩

/-- C8 (witness): the round-trip theorem applied to the spec's concrete CPF,
CNPJ and CEP examples. -/
theorem c8_witness :
    ((validateCPF (some "111.444.777-35")).valid = true
      ∧ (validateCPF (some "111.444.777-35")).normalized = some "111.444.777-35")
    ∧ ((validateCNPJ (some "11.222.333/0001-81")).valid = true
      ∧ (validateCNPJ (some "11.222.333/0001-81")).normalized = some "11.222.333/0001-81")
    ∧ ((validateCEP (some "01310-100")).valid = true
      ∧ (validateCEP (some "01310-100")).normalized = some "01310-100") :=
  ⟨(c8_roundtrip_normalized (some "111.444.777-35") "111.444.777-35").1 (by decide) (by decide),
   (c8_roundtrip_normalized (some "11.222.333/0001-81") "11.222.333/0001-81").2.1
     (by decide) (by decide),
   (c8_roundtrip_normalized (some "01310100") "01310-100").2.2 (by decide) (by decide)⟩
